import Mathlib

/-!
# Dendenmushi tracing instrumentation

A shallow embedding of `src/utils.js`, `src/clientUtils.js` and
`src/instrumentation.js`.

JavaScript values are a small inductive type; the closures the instrumentation
builds (wrapped callbacks, the transport write wrapper) are data constructors
whose bodies are the functions below.  Everything the instrumentation forwards
to a collaborator (tracer, span, transport, wrapped originals, user callbacks)
is appended to an event log carried by the `World`, together with the
instrumentation's own mutable state (`_config`, `_spanNotEnded`) and the
`write` slot of every transport object.
-/

namespace Dendenmushi

/-! ## Values -/

/-- Span context as far as the code reads it: validity and `isRemote`. -/
structure SpanContext where
  isValid : Bool
  isRemote : Bool
deriving DecidableEq, Repr

/-- The constant `INVALID_SPAN_CONTEXT` of the tracing API. -/
def INVALID_SPAN_CONTEXT : SpanContext := { isValid := false, isRemote := false }

/-- A span handle.  `id` is the identity of the JavaScript object: two
handles are the same object exactly when they are equal.  A span carried by a
context keeps the identity the context gives it. -/
structure Span where
  id : Nat
  spanContext : SpanContext
deriving DecidableEq, Repr

/-- A context value: the span `trace.getSpan` finds in it and the span stored
by `setRPCMetadata`. -/
structure Context where
  span : Option Span
  rpcMetadata : Option Span
deriving DecidableEq, Repr

/-- The constant `ROOT_CONTEXT`: no span, no metadata. -/
def ROOT_CONTEXT : Context := { span := none, rpcMetadata := none }

/-- The operation `trace.getSpan(ctx)`. -/
def getSpan (ctx : Context) : Option Span := ctx.span

/-- The operation `trace.setSpan(ctx, span)`. -/
def setSpan (ctx : Context) (span : Span) : Context := { ctx with span := some span }

/-- The operation `setRPCMetadata(ctx, {type, span})`. -/
def setRPCMetadata (ctx : Context) (span : Span) : Context :=
  { ctx with rpcMetadata := some span }

/-- JavaScript values handed to the instrumentation by its callers and
collaborators.  `obj` and `fn` carry the properties visible through them in
insertion order; `fn` is a function with identity `id`. -/
inductive Val where
  | undefined : Val
  | null : Val
  | bool (b : Bool) : Val
  | num (n : Int) : Val
  | nan : Val
  | str (s : String) : Val
  | obj (props : List (String × Val)) : Val
  | arr (items : List Val) : Val
  | fn (id : Nat) (props : List (String × Val)) : Val

/-- An element of the argument list a wrapped original is applied to: a value
of the caller, or one of the closures the instrumentation puts in place of a
callback, created by `patchedCallback` (clientUtils.js) or by the callback
replacement in `_traceClientConnection`; each stores what the closure
captures. -/
inductive Arg where
  | val (v : Val) : Arg
  | patchedCallback (span : Span) (bound : Context) (callback : Val) : Arg
  | connectCallback (span : Span) (newContext : Context) (callback : Val) : Arg

instance : Inhabited Val := ⟨Val.undefined⟩

abbrev Props := List (String × Val)

/-- Truthiness as used by `if (x)` and `!x`. -/
def truthy : Val → Bool
  | .undefined => false
  | .null => false
  | .bool b => b
  | .num n => n != 0
  | .nan => false
  | .str s => s != ""
  | _ => true

/-- The test `typeof v === 'function'`. -/
def isFunction : Val → Bool
  | .fn _ _ => true
  | _ => false

/-- Property lookup in a property list; an absent key reads `undefined`. -/
def lookupProp : Props → String → Val
  | [], _ => .undefined
  | (k, v) :: rest, key => if k = key then v else lookupProp rest key

/-- Property assignment `o[k] = v`: replaces in place or appends. -/
def setProp : Props → String → Val → Props
  | [], key, v => [(key, v)]
  | (k, x) :: rest, key, v =>
    if k = key then (k, v) :: rest else (k, x) :: setProp rest key v

/-- The expression `v.key` on a value that is neither null nor undefined
(primitives have none of the keys read by this code). -/
def getProp : Val → String → Val
  | .obj props, key => lookupProp props key
  | .fn _ props, key => lookupProp props key
  | _, _ => .undefined

/-- The expression `v?.[i]`. -/
def index : Val → Nat → Val
  | .arr items, i => items.getD i .undefined
  | .obj props, i => lookupProp props (toString i)
  | .fn _ props, i => lookupProp props (toString i)
  | .str s, i => match s.toList.get? i with
    | some c => .str (String.singleton c)
    | none => .undefined
  | _, _ => .undefined

/-- The strict comparison `v === s` against a string literal. -/
def isStr (v : Val) (s : String) : Bool :=
  match v with
  | .str t => t == s
  | _ => false

/-- The test `typeof v === 'object'`. -/
def typeofIsObject : Val → Bool
  | .null => true
  | .obj _ => true
  | .arr _ => true
  | _ => false

/-- The call `Array.isArray(v)`. -/
def isArray : Val → Bool
  | .arr _ => true
  | _ => false

/-- The comparison `v === null`. -/
def isNull : Val → Bool
  | .null => true
  | _ => false

/-- The function `isObject` of utils.js:
`typeof val === 'object' && !Array.isArray(val) && val !== null`. -/
def isObject (val : Val) : Bool :=
  typeofIsObject val && !isArray val && !isNull val

/-- The function `isObject` applied to an element of the argument list; the
closures are functions. -/
def Arg.isObject : Arg → Bool
  | .val v => Dendenmushi.isObject v
  | _ => false

/-- The test `typeof a === 'function'` on an element of the argument list. -/
def Arg.isFunction : Arg → Bool
  | .val v => Dendenmushi.isFunction v
  | _ => true

/-- Array element assignment `args[i] = v`; assigning past the end leaves
holes, which read as `undefined` when the array is spread into a call. -/
def setIdx : List Arg → Nat → Arg → List Arg
  | [], 0, v => [v]
  | [], i + 1, v => Arg.val Val.undefined :: setIdx [] i v
  | _ :: rest, 0, v => v :: rest
  | x :: rest, i + 1, v => x :: setIdx rest i v

/-- The element `args[i]` of an argument list. -/
def argAt (args : List Arg) (i : Nat) : Arg := args.getD i (Arg.val Val.undefined)

/-- The expression `args.findIndex(arg => typeof arg === 'function')`,
with `none` for the result `-1`. -/
def findCallbackIdx : List Val → Option Nat
  | [] => none
  | x :: rest => if isFunction x then some 0 else (findCallbackIdx rest).map (· + 1)

/-! ## Collaborator calls and the world -/

inductive SpanKind where
  | CLIENT | SERVER
deriving DecidableEq, Repr

inductive SpanStatusCode where
  | UNSET | OK | ERROR
deriving DecidableEq, Repr

/-- Modelled from the spec: the attribute-name constants, which come from
`./attributeNames` and `@opentelemetry/semantic-conventions` and are absent
from the sources; the spec names "error kind/name, error message, error
stack/trace text" and host, port and method tags.  They are kept symbolic. -/
inductive AttrKey where
  | RPC_ERROR_NAME | RPC_ERROR_MESSAGE | RPC_ERROR_STACK
  | RPC_SYSTEM | RPC_METHOD
  | NET_HOST_NAME | NET_PEER_NAME | NET_PEER_PORT
deriving DecidableEq, Repr

abbrev Attributes := List (AttrKey × Val)

/-- The value currently stored in a transport's `write` property: the
transport's own function, or the wrapper installed by `serverHandle`, which
captures the response's transport, the span and the previous value. -/
inductive WriteFn where
  | original : WriteFn
  | wrapper (conn : Nat) (span : Span) (originalWrite : WriteFn) : WriteFn
deriving DecidableEq, Repr

/-- Calls that leave the instrumentation. -/
inductive Event where
  | startSpan (name : String) (kind : SpanKind) (attributes : Attributes)
      (parent : Context) (span : Span) : Event
  | setAttributes (span : Span) (attributes : Attributes) : Event
  | setStatus (span : Span) (code : SpanStatusCode) (message : Val) : Event
  | spanEnd (span : Span) : Event
  | write (conn : Nat) (message : Val) : Event
  | dispatch (event : String) (active : Context) : Event
  | connect (args : List Arg) : Event
  | call (args : List Arg) : Event
  | callback (f : Val) (args : List Val) (active : Context) : Event

/-- Instrumentation state, transport state and the log of forwarded calls. -/
structure World where
  _config : Props
  _spanNotEnded : List Span
  log : List Event
  nextId : Nat
  connWrite : Nat → WriteFn

def World.emit (w : World) (e : Event) : World := { w with log := w.log ++ [e] }

/-- A world with nothing registered, nothing logged and unwrapped transports. -/
def World.init (config : Props) : World :=
  { _config := config, _spanNotEnded := [], log := [], nextId := 0,
    connWrite := fun _ => WriteFn.original }

/-- Is the event `span.end()` on this span? -/
def Event.isEndOf (span : Span) : Event → Bool
  | .spanEnd s => s == span
  | _ => false

/-- Number of `span.end()` calls forwarded for a span. -/
def endCount (log : List Event) (span : Span) : Nat :=
  (log.filter (Event.isEndOf span)).length

/-! ## utils.js -/

/-- The function `setSpanWithError(span, error)`. -/
def setSpanWithError (span : Span) (error : Val) (w : World) : World :=
  if !truthy error then w
  else
    let message := getProp error "message"
    let w1 := w.emit (.setAttributes span
      [ (AttrKey.RPC_ERROR_NAME, getProp error "name"),
        (AttrKey.RPC_ERROR_MESSAGE, message),
        (AttrKey.RPC_ERROR_STACK, getProp error "stack") ])
    w1.emit (.setStatus span SpanStatusCode.ERROR message)

/-! ## instrumentation.js: configuration and the span registry -/

/-- The method `setConfig(config = {})`:
`this._config = Object.assign({hostname: 'localhost'}, config)`. -/
def setConfig (config : Option Props) (w : World) : World :=
  let defaults : Props := [("hostname", Val.str "localhost")]
  { w with _config :=
      List.foldl (fun acc kv => setProp acc kv.1 kv.2) defaults (config.getD []) }

/-- The method `getConfig()`. -/
def getConfig (w : World) : Props := w._config

/-- The operation `this._spanNotEnded.add(span)`. -/
def spanNotEndedAdd (set : List Span) (span : Span) : List Span :=
  if span ∈ set then set else set ++ [span]

/-- The operation `this._spanNotEnded.delete(span)`. -/
def spanNotEndedDelete (set : List Span) (span : Span) : List Span :=
  set.filter (fun s => s != span)

/-- The call `trace.wrapSpanContext(spanContext)`: a new non-recording span
object around the given span context. -/
def wrapSpanContext (spanContext : SpanContext) (w : World) : Span × World :=
  ({ id := w.nextId, spanContext := spanContext }, { w with nextId := w.nextId + 1 })

/-- The call `this.tracer.startSpan(name, options, ctx)`: the tracer hands
back a new span object; the call is logged. -/
def tracerStartSpan (name : String) (kind : SpanKind) (attributes : Attributes)
    (ctx : Context) (w : World) : Span × World :=
  let span : Span := { id := w.nextId, spanContext := { isValid := true, isRemote := false } }
  (span, { w with nextId := w.nextId + 1 }.emit (.startSpan name kind attributes ctx span))

/-- The comparison `v === true`. -/
def strictlyTrue (v : Val) : Bool :=
  match v with
  | .bool true => true
  | _ => false

/-- The method `_startRpcSpan(name, options, ctx)`, with `options` given as
its `kind` and `attributes`. -/
def _startRpcSpan (name : String) (kind : SpanKind) (attributes : Attributes)
    (ctx : Context) (w : World) : Span × World :=
  let requireParent :=
    match kind with
    | .CLIENT => lookupProp (getConfig w) "requireParentforClientSpans"
    | .SERVER => lookupProp (getConfig w) "requireParentforServerSpans"
  let currentSpan := getSpan ctx
  let started : Span × World :=
    match currentSpan with
    | none =>
      if strictlyTrue requireParent then wrapSpanContext INVALID_SPAN_CONTEXT w
      else tracerStartSpan name kind attributes ctx w
    | some cur =>
      if strictlyTrue requireParent && cur.spanContext.isRemote then (cur, w)
      else tracerStartSpan name kind attributes ctx w
  (started.1,
    { started.2 with _spanNotEnded := spanNotEndedAdd started.2._spanNotEnded started.1 })

/-- The method `_closeSpan(span)`. -/
def _closeSpan (span : Span) (w : World) : World :=
  if !(span ∈ w._spanNotEnded) then w
  else
    let w1 := w.emit (.spanEnd span)
    { w1 with _spanNotEnded := spanNotEndedDelete w1._spanNotEnded span }

/-- Calling `_closeSpan(span)` `n` times in a row. -/
def closeTimes (span : Span) : Nat → World → World
  | 0, w => w
  | n + 1, w => closeTimes span n (_closeSpan span w)

/-! ## Collaborator helpers -/

/-- The helper `safeExecuteInTheMiddle(execute, onFinish)` of
`@opentelemetry/instrumentation`: runs `execute`, catching what it throws;
then runs `onFinish(error, result)` (which may itself throw); then rethrows
`error` when it is truthy and otherwise returns `result`. -/
def safeExecuteInTheMiddle (execute : World → Except Val Val × World)
    (onFinish : Val → Val → World → Except Val Unit × World) (w : World) :
    Except Val Val × World :=
  let ran := execute w
  let error : Val := match ran.1 with
    | .error e => e
    | .ok _ => .undefined
  let result : Val := match ran.1 with
    | .error _ => .undefined
    | .ok v => v
  let finished := onFinish error result ran.2
  match finished.1 with
  | .error thrown => (.error thrown, finished.2)
  | .ok _ => if truthy error then (.error error, finished.2) else (.ok result, finished.2)

/-- The `onFinish` handler used at both `safeExecuteInTheMiddle` sites:
`error => { if (error) { setSpanWithError(span, error);
instrumentation._closeSpan(span); throw error; } }`. -/
def onFinishError (span : Span) (error : Val) (_result : Val) (w : World) :
    Except Val Unit × World :=
  if truthy error then (.error error, _closeSpan span (setSpanWithError span error w))
  else (.ok (), w)

/-! ## clientUtils.js -/

/-- The inner function `patchedCallback(span, callback)`: the wrapped
function bound to the active context. -/
def patchedCallback (span : Span) (callback : Val) (active : Context) : Arg :=
  .patchedCallback span active callback

/-- Body of the closure built by `patchedCallback`, called with `args`:
`setSpanWithError(span, err); instrumentation._closeSpan(span);
callback(err, data)`.  The user callback is a collaborator: its invocation is
logged with its arguments and the context active around it. -/
def invokePatchedCallback (span : Span) (bound : Context) (callback : Val)
    (args : List Val) (w : World) : World :=
  let err := args.getD 0 .undefined
  let data := args.getD 1 .undefined
  let w1 := setSpanWithError span err w
  let w2 := _closeSpan span w1
  w2.emit (.callback callback [err, data] bound)

/-- The call `propagation.inject(context.active(), headers, {set})`: the
propagator calls `set(headers, k, v)`, that is `headers[k] = v`, for each
field it emits for the context. -/
def inject (fields : List (String × String)) (headers : Arg) : Arg :=
  match headers with
  | .val (.obj props) =>
    .val (.obj (fields.foldl (fun acc kv => setProp acc kv.1 (.str kv.2)) props))
  | other => other

/-- The function `makeRpcClientRemoteCall(original, instrumentation, args,
self)(span)`.  `propagator` gives the fields the propagation API emits for a
context; `original` gives the outcome of the wrapped `call` for the argument
list it receives.  `inject` writes into the object stored in the headers
slot, so the slot holds the written object when `original` is applied. -/
def makeRpcClientRemoteCall (original : List Arg → Except Val Val)
    (propagator : Context → List (String × String)) (args : List Val)
    (active : Context) (span : Span) (w : World) : Except Val Val × World :=
  let callbackIdx := findCallbackIdx args
  let args1 : List Arg :=
    match callbackIdx with
    | some i => setIdx (args.map Arg.val) i (patchedCallback span (args.getD i .undefined) active)
    | none => args.map Arg.val
  let slot := if callbackIdx = some 2 then 3 else 2
  let headers : Arg :=
    if (argAt args1 slot).isObject then argAt args1 slot else .val (.obj [])
  let args2 := setIdx args1 slot (inject (propagator active) headers)
  (original args2, w.emit (.call args2))

/-! ## instrumentation.js: the client wrappers -/

/-- The expression `instrumentation.getConfig().hostname || 'localhost'`. -/
def configHostname (w : World) : Val :=
  let hostname := lookupProp (getConfig w) "hostname"
  if truthy hostname then hostname else .str "localhost"

/-- Body of the callback replacement in `_traceClientConnection`, called with
`args`: annotate a truthy first argument, close the span, then call the
original callback with the same arguments under `newContext`. -/
def invokeConnectCallback (span : Span) (newContext : Context) (callback : Val)
    (args : List Val) (w : World) : World :=
  let w1 :=
    if truthy (args.getD 0 .undefined) then setSpanWithError span (args.getD 0 .undefined) w
    else w
  let w2 := _closeSpan span w1
  w2.emit (.callback callback args newContext)

/-- Calling an element of an argument list with `args`. -/
def invoke (f : Arg) (args : List Val) (active : Context) (w : World) : World :=
  match f with
  | .connectCallback span newContext callback =>
    invokeConnectCallback span newContext callback args w
  | .patchedCallback span bound callback => invokePatchedCallback span bound callback args w
  | .val (.fn id props) => w.emit (.callback (.fn id props) args active)
  | .val _ => w

/-- What the wrapped `connect` does when it runs: it may call its first
argument synchronously with the given arguments, then it returns a client or
throws. -/
structure ConnectBehaviour where
  callsBack : Option (List Val)
  outcome : Except Val Val

/-- The span the wrapped `connect` starts. -/
def connectSpan (host port : Val) (active : Context) (w : World) : Span × World :=
  _startRpcSpan "MushiClient.connect" .CLIENT
    [ (AttrKey.NET_HOST_NAME, configHostname w),
      (AttrKey.NET_PEER_NAME, host),
      (AttrKey.NET_PEER_PORT, port) ]
    active w

/-- The function returned by `_traceClientConnection(original)`, called with
`args` on a client whose `_server` is `{host, port}`. -/
def _traceClientConnection (original : ConnectBehaviour) (host port : Val)
    (args : List Val) (active : Context) (w : World) : Except Val Val × World :=
  let started := connectSpan host port active w
  let span := started.1
  let newContext := setSpan active span
  let callbackIdx := findCallbackIdx args
  let haveCallback : Bool := callbackIdx = some 0
  let arguments : List Arg :=
    if haveCallback then
      setIdx (args.map Arg.val) 0 (.connectCallback span newContext (args.getD 0 .undefined))
    else args.map Arg.val
  let w2 := started.2.emit (.connect arguments)
  let w3 :=
    match original.callsBack with
    | some cbArgs =>
      if (argAt arguments 0).isFunction then invoke (argAt arguments 0) cbArgs active w2
      else w2
    | none => w2
  match original.outcome with
  | .ok client => (.ok client, if !haveCallback then _closeSpan span w3 else w3)
  | .error error => (.error error, _closeSpan span (setSpanWithError span error w3))

/-- The span `clientCall` starts.  `toStr` is the string conversion of the
template literal. -/
def clientCallSpan (toStr : Val → String) (host port : Val) (args : List Val)
    (active : Context) (w : World) : Span × World :=
  _startRpcSpan ("MushiClient.call " ++ toStr (args.getD 0 .undefined)) .CLIENT
    [ (AttrKey.NET_HOST_NAME, configHostname w),
      (AttrKey.NET_PEER_NAME, host),
      (AttrKey.NET_PEER_PORT, port),
      (AttrKey.RPC_METHOD, args.getD 0 .undefined) ]
    active w

/-- The function `clientCall` returned by `_patchClientCall`, called with
`args` on a client whose `_server` is `{host, port}`. -/
def clientCall (original : List Arg → Except Val Val)
    (propagator : Context → List (String × String)) (toStr : Val → String)
    (host port : Val) (args : List Val) (active : Context) (w : World) :
    Except Val Val × World :=
  let started := clientCallSpan toStr host port args active w
  makeRpcClientRemoteCall original propagator args (setSpan active started.1) started.1
    started.2

/-! ## instrumentation.js: the server wrapper -/

def World.setWrite (w : World) (conn : Nat) (f : WriteFn) : World :=
  { w with connWrite := fun c => if c = conn then f else w.connWrite c }

/-- Calling a value stored in a transport's `write` slot on transport `this`
with `message`.  `origWrite` is the outcome of the transport's own write.

The wrapper is the function assigned to `res._conn.write` in `serverHandle`;
it first stores `originalWrite` back into the slot and then calls what the
slot holds, which is `originalWrite`. -/
def callWrite (origWrite : Nat → Val → Except Val Val) :
    WriteFn → Nat → Val → World → Except Val Val × World
  | .original, this, message, w => (origWrite this message, w.emit (.write this message))
  | .wrapper conn span originalWrite, this, message, w =>
    let w0 := w.setWrite conn originalWrite
    let ran := safeExecuteInTheMiddle
      (fun v => callWrite origWrite originalWrite this message v) (onFinishError span) w0
    match ran.1 with
    | .error error => (.error error, ran.2)
    | .ok returned =>
      let msgStatus := index message 1
      let w1 :=
        if isStr msgStatus "error" then
          setSpanWithError span (.obj [("message", index message 2)]) ran.2
        else ran.2
      (.ok returned, _closeSpan span w1)

structure Request where
  headers : Val

structure Response where
  _method : String
  _conn : Nat

/-- What the wrapped `emit` does for one event: the messages it writes
synchronously through `res._conn.write`, then its return value or the value
it throws. -/
structure Handler where
  writes : List Val
  outcome : Except Val Val

/-- The call `original.apply(this, [event, ...args])`. -/
def runOriginal (origWrite : Nat → Val → Except Val Val) (handler : Handler)
    (event : String) (res : Response) (active : Context) (w : World) :
    Except Val Val × World :=
  let w1 := w.emit (.dispatch event active)
  let w2 := handler.writes.foldl
    (fun acc message =>
      (callWrite origWrite (acc.connWrite res._conn) res._conn message acc).2) w1
  (handler.outcome, w2)

/-- The span `serverHandle` starts for a request and response. -/
def serverSpan (extract : Val → Context) (req : Request) (res : Response) (w : World) :
    Span × World :=
  _startRpcSpan ("MushiServer " ++ res._method) .SERVER
    [ (AttrKey.RPC_SYSTEM, .str "@upyun/dendenmushi"),
      (AttrKey.RPC_METHOD, .str res._method) ]
    (extract req.headers) w

/-- The function `serverHandle(event, ...args)` with `req = args[0]` and
`res = args[1]`.  `extract` is `propagation.extract(ROOT_CONTEXT, headers)`;
`active` is the context active at the call. -/
def serverHandle (origWrite : Nat → Val → Except Val Val) (extract : Val → Context)
    (handler : Handler) (event : String) (req : Request) (res : Response)
    (active : Context) (w : World) : Except Val Val × World :=
  if event = "MUSHI_DONE" then runOriginal origWrite handler event res active w
  else
    let ctx := extract req.headers
    let started := serverSpan extract req res w
    let span := started.1
    let originalWrite := started.2.connWrite res._conn
    let w1 := started.2.setWrite res._conn (.wrapper res._conn span originalWrite)
    safeExecuteInTheMiddle
      (fun v => runOriginal origWrite handler event res
        (setRPCMetadata (setSpan ctx span) span) v)
      (onFinishError span) w1

/-! ## Interceptor events -/

/-- An invocation of one of the closures the instrumentation installed: the
callback replacement of `_traceClientConnection`, the closure of
`patchedCallback`, a call of a transport's current `write`, or the handler of
a synchronous throw in `serverHandle`. -/
inductive Interceptor where
  | connectCallback (span : Span) (newContext : Context) (callback : Val)
      (args : List Val) : Interceptor
  | patchedCallback (span : Span) (bound : Context) (callback : Val)
      (args : List Val) : Interceptor
  | write (conn : Nat) (message : Val) : Interceptor
  | handlerThrow (span : Span) (error : Val) : Interceptor

/-- Running one interceptor event. -/
def Interceptor.step (origWrite : Nat → Val → Except Val Val) :
    Interceptor → World → World
  | .connectCallback span newContext callback args, w =>
    invokeConnectCallback span newContext callback args w
  | .patchedCallback span bound callback args, w =>
    invokePatchedCallback span bound callback args w
  | .write conn message, w => (callWrite origWrite (w.connWrite conn) conn message w).2
  | .handlerThrow span error, w => (onFinishError span error .undefined w).2

/-- Running a sequence of interceptor events. -/
def runInterceptors (origWrite : Nat → Val → Except Val Val)
    (events : List Interceptor) (w : World) : World :=
  events.foldl (fun acc e => e.step origWrite acc) w

/-! ## Example inputs -/

/-- A started, recording span object. -/
def exampleSpan : Span := { id := 0, spanContext := { isValid := true, isRemote := false } }

/-- The plain-data error `{message: "bad request"}`. -/
def plainError : Val := .obj [("message", .str "bad request")]

/-- The world after `setConfig({requireParentForClientSpans: true})`. -/
def capitalForWorld : World :=
  setConfig (some [("requireParentForClientSpans", .bool true)]) (World.init [])

/-- The world after `setConfig({requireParentforClientSpans: true})`. -/
def requireParentWorld : World :=
  setConfig (some [("requireParentforClientSpans", .bool true)]) (World.init [])

/-- The world after `setConfig()`. -/
def defaultWorld : World := setConfig none (World.init [])

/-- A transport whose own write always returns `true`. -/
def origWriteOk : Nat → Val → Except Val Val := fun _ _ => .ok (.bool true)

/-- A propagator that finds no trace context in the headers. -/
def extractNone : Val → Context := fun _ => ROOT_CONTEXT

/-- A request without trace headers. -/
def plainRequest : Request := { headers := .obj [] }

/-- Responses for methods `Foo` and `Bar` on the same transport. -/
def resFoo : Response := { _method := "Foo", _conn := 0 }

def resBar : Response := { _method := "Bar", _conn := 0 }

/-- The value `new Error("boom")`. -/
def boomError : Val :=
  .obj [("name", .str "Error"), ("message", .str "boom"), ("stack", .str "Error: boom")]

/-- A handler that returns without writing. -/
def quietHandler : Handler := { writes := [], outcome := .ok .undefined }

/-- A handler that throws `Error("boom")` without writing. -/
def throwingHandler : Handler := { writes := [], outcome := .error boomError }

/-- The messages `[0, "error", "bad request"]` and `[0, "ok", "done"]`. -/
def errorMessage : Val := .arr [.num 0, .str "error", .str "bad request"]

def okMessage : Val := .arr [.num 0, .str "ok", .str "done"]

/-- The spans the tracer hands out second. -/
def secondSpan : Span := { id := 1, spanContext := { isValid := true, isRemote := false } }

/-- The world after dispatching `"call"` for `Foo` with a quiet handler. -/
def dispatchedWorld : World :=
  (serverHandle origWriteOk extractNone quietHandler "call" plainRequest resFoo ROOT_CONTEXT
    defaultWorld).2

/-- The world after the response for `Foo` has then been written. -/
def writtenWorld : World :=
  runInterceptors origWriteOk [Interceptor.write 0 okMessage] dispatchedWorld

/-- The world after dispatching `"call"` for `Foo` and then for `Bar` on the
same transport, both with quiet handlers. -/
def twoDispatchWorld : World :=
  (serverHandle origWriteOk extractNone quietHandler "call" plainRequest resBar ROOT_CONTEXT
    dispatchedWorld).2

/-- A handler that writes its response and then throws `Error("boom")`. -/
def writeThenThrowHandler : Handler := { writes := [okMessage], outcome := .error boomError }

/-- A wrapped `call` that returns `undefined`, a propagator that emits one
`traceparent` field, and a string conversion for method names. -/
def quietCall : List Arg → Except Val Val := fun _ => .ok .undefined

def traceparentPropagator : Context → List (String × String) :=
  fun _ => [("traceparent", "00-0af7651916cd43dd8448eb211c80319c-b7ad6b7169203331-01")]

def methodName : Val → String
  | .str s => s
  | _ => "undefined"

/-- A connect that throws `Error("boom")` without calling back. -/
def throwingConnect : ConnectBehaviour := { callsBack := none, outcome := .error boomError }

/-- The world after dispatching `"call"` for `Foo` with a handler that throws
`Error("boom")` before anything is written. -/
def thrownWorld : World :=
  (serverHandle origWriteOk extractNone throwingHandler "call" plainRequest resFoo ROOT_CONTEXT
    defaultWorld).2

/-- A connect that returns a client without calling back, and a callback. -/
def quietConnect : ConnectBehaviour := { callsBack := none, outcome := .ok (.obj []) }

def userCallback : Val := .fn 7 []


/-! ## Specification helpers -/

/-- The value the last `set(headers, key, v)` call of the propagator wrote
for `key`, if any. -/
def lastField : List (String × String) → String → Option String
  | [], _ => none
  | (k, v) :: rest, key =>
    match lastField rest key with
    | some x => some x
    | none => if k = key then some v else none

/-- Is the value function-typed?  Written for the statements, apart from the
tests the code performs. -/
def functionTyped : Val → Bool
  | .fn _ _ => true
  | _ => false

/-- The headers slot in the words of the specification: index 3 when the
first function-typed argument is at index 2, index 2 otherwise. -/
def expectedHeadersSlot : List Val → Nat
  | a0 :: a1 :: a2 :: _ =>
    if !functionTyped a0 && !functionTyped a1 && functionTyped a2 then 3 else 2
  | _ => 2

/-- The entries of a plain key/value map (an object that is neither null nor
an array), and `none` for every other value. -/
def plainMap : Val → Option Props
  | .obj props => some props
  | _ => none

/-- The later world has the log of the earlier one as its beginning. -/
def Extends (w w2 : World) : Prop := ∃ tail, w2.log = w.log ++ tail

/-- Ends forwarded for a span plus one while it is still in the not-ended
set: the number of `end` calls the span will have received once closed. -/
def potential (w : World) (s : Span) : Nat :=
  endCount w.log s + (if s ∈ w._spanNotEnded then 1 else 0)

/-- Relation between a world and a later one, for one span: the potential is
the same and the span has not been put back into the not-ended set. -/
def Stable (s : Span) (w w2 : World) : Prop :=
  potential w2 s = potential w s ∧ (s ∉ w._spanNotEnded → s ∉ w2._spanNotEnded)

/-! ## Registry lemmas -/

theorem mem_spanNotEndedAdd (set : List Span) (span : Span) :
    span ∈ spanNotEndedAdd set span := by
  unfold spanNotEndedAdd
  split
  · assumption
  · simp

theorem mem_spanNotEndedDelete (set : List Span) (s t : Span) :
    s ∈ spanNotEndedDelete set t ↔ s ∈ set ∧ s ≠ t := by
  simp [spanNotEndedDelete]

theorem closeSpan_of_not_mem (span : Span) (w : World) (h : span ∉ w._spanNotEnded) :
    _closeSpan span w = w := by
  simp [_closeSpan, h]

theorem closeSpan_of_mem (span : Span) (w : World) (h : span ∈ w._spanNotEnded) :
    _closeSpan span w =
      { w with log := w.log ++ [Event.spanEnd span],
               _spanNotEnded := spanNotEndedDelete w._spanNotEnded span } := by
  simp [_closeSpan, h, World.emit]

theorem not_mem_after_closeSpan (span : Span) (w : World) :
    span ∉ (_closeSpan span w)._spanNotEnded := by
  by_cases h : span ∈ w._spanNotEnded
  · rw [closeSpan_of_mem span w h]
    simp [mem_spanNotEndedDelete]
  · rw [closeSpan_of_not_mem span w h]
    exact h

theorem closeTimes_of_not_mem (span : Span) (n : Nat) (w : World)
    (h : span ∉ w._spanNotEnded) : closeTimes span n w = w := by
  induction n with
  | zero => rfl
  | succ k ih => simp [closeTimes, closeSpan_of_not_mem span w h, ih]

theorem closeTimes_succ (span : Span) (n : Nat) (w : World) :
    closeTimes span (n + 1) w = _closeSpan span w := by
  simp [closeTimes, closeTimes_of_not_mem span n _ (not_mem_after_closeSpan span w)]

theorem startRpcSpan_mem (name : String) (kind : SpanKind) (attributes : Attributes)
    (ctx : Context) (w : World) :
    (_startRpcSpan name kind attributes ctx w).1 ∈
      (_startRpcSpan name kind attributes ctx w).2._spanNotEnded := by
  simp only [_startRpcSpan]
  exact mem_spanNotEndedAdd _ _

theorem endCount_append (l1 l2 : List Event) (span : Span) :
    endCount (l1 ++ l2) span = endCount l1 span + endCount l2 span := by
  simp [endCount]

theorem setSpanWithError_log (span : Span) (error : Val) (w : World)
    (h : truthy error = true) :
    (setSpanWithError span error w).log =
      w.log ++
        [ Event.setAttributes span
            [ (AttrKey.RPC_ERROR_NAME, getProp error "name"),
              (AttrKey.RPC_ERROR_MESSAGE, getProp error "message"),
              (AttrKey.RPC_ERROR_STACK, getProp error "stack") ],
          Event.setStatus span SpanStatusCode.ERROR (getProp error "message") ] := by
  simp [setSpanWithError, h, World.emit]

theorem setSpanWithError_spanNotEnded (span : Span) (error : Val) (w : World) :
    (setSpanWithError span error w)._spanNotEnded = w._spanNotEnded := by
  unfold setSpanWithError
  split <;> rfl

/-! ## Properties -/

/-- C1: for the span returned by `_startRpcSpan` and every `N ≥ 1`, `N`
successive `_closeSpan` calls forward exactly one `span.end()`: the first call
appends the single `end` event and removes the span from the not-ended set,
and every later call returns the world (span log and registry) unchanged. -/
theorem closeSpan_exactly_one_end (name : String) (kind : SpanKind)
    (attributes : Attributes) (ctx : Context) (w : World) (N : Nat) (hN : 1 ≤ N) :
    let span := (_startRpcSpan name kind attributes ctx w).1
    let w1 := (_startRpcSpan name kind attributes ctx w).2
    span ∈ w1._spanNotEnded
    ∧ (_closeSpan span w1).log = w1.log ++ [Event.spanEnd span]
    ∧ span ∉ (_closeSpan span w1)._spanNotEnded
    ∧ (∀ k, 1 ≤ k → _closeSpan span (closeTimes span k w1) = closeTimes span k w1)
    ∧ (closeTimes span N w1).log = w1.log ++ [Event.spanEnd span]
    ∧ endCount (closeTimes span N w1).log span = endCount w1.log span + 1 := by
  intro span w1
  have hmem : span ∈ w1._spanNotEnded := startRpcSpan_mem name kind attributes ctx w
  have hlog : (_closeSpan span w1).log = w1.log ++ [Event.spanEnd span] := by
    rw [closeSpan_of_mem span w1 hmem]
  have hN2 : closeTimes span N w1 = _closeSpan span w1 := by
    obtain ⟨m, rfl⟩ : ∃ m, N = m + 1 := ⟨N - 1, by omega⟩
    exact closeTimes_succ span m w1
  refine ⟨hmem, hlog, not_mem_after_closeSpan span w1, ?_, ?_, ?_⟩
  · intro k hk
    obtain ⟨m, rfl⟩ : ∃ m, k = m + 1 := ⟨k - 1, by omega⟩
    rw [closeTimes_succ]
    exact closeSpan_of_not_mem span _ (not_mem_after_closeSpan span w1)
  · rw [hN2, hlog]
  · rw [hN2, hlog, endCount_append]
    simp [endCount, Event.isEndOf]

/-- Witness for C1: three closes after starting a client span in the initial
world. -/
theorem closeSpan_exactly_one_end_witness :
    (closeTimes (_startRpcSpan "MushiClient.connect" .CLIENT [] ROOT_CONTEXT (World.init [])).1 3
        (_startRpcSpan "MushiClient.connect" .CLIENT [] ROOT_CONTEXT (World.init [])).2).log =
      (_startRpcSpan "MushiClient.connect" .CLIENT [] ROOT_CONTEXT (World.init [])).2.log ++
        [Event.spanEnd
          (_startRpcSpan "MushiClient.connect" .CLIENT [] ROOT_CONTEXT (World.init [])).1] :=
  (closeSpan_exactly_one_end "MushiClient.connect" .CLIENT [] ROOT_CONTEXT (World.init []) 3
    (by decide)).2.2.2.2.1

/-- C2: with a `null` or an `undefined` error `setSpanWithError` returns the
world unchanged: no `setAttributes`, no `setStatus`, registry untouched. -/
theorem setSpanWithError_absent_noop (span : Span) (w : World) :
    setSpanWithError span Val.null w = w ∧ setSpanWithError span Val.undefined w = w := by
  constructor <;> rfl

/-- C3 as stated fails: for the plain-data error `{message: "bad request"}`
the attributes handed to `setAttributes` are not three strings. -/
theorem setSpanWithError_plain_data_not_three_strings :
    ¬ ∃ n m s : String,
      (setSpanWithError exampleSpan plainError (World.init [])).log =
        [ Event.setAttributes exampleSpan
            [ (AttrKey.RPC_ERROR_NAME, Val.str n),
              (AttrKey.RPC_ERROR_MESSAGE, Val.str m),
              (AttrKey.RPC_ERROR_STACK, Val.str s) ],
          Event.setStatus exampleSpan SpanStatusCode.ERROR (Val.str m) ] := by
  rintro ⟨n, m, s, h⟩
  simp [setSpanWithError, plainError, truthy, getProp, lookupProp, World.emit,
    World.init] at h

/-- C3 amended: for every truthy error value `setSpanWithError` calls
`setAttributes` once with the three error keys bound to the value's `name`,
`message` and `stack` properties (which read `undefined` where the property
is missing, as `name` and `stack` do for plain data carrying only a message),
then `setStatus` with code ERROR and the `message` property; it forwards no
`span.end()` and leaves the not-ended set unchanged. -/
theorem setSpanWithError_present (span : Span) (error : Val) (w : World)
    (h : truthy error = true) :
    (setSpanWithError span error w).log =
        w.log ++
          [ Event.setAttributes span
              [ (AttrKey.RPC_ERROR_NAME, getProp error "name"),
                (AttrKey.RPC_ERROR_MESSAGE, getProp error "message"),
                (AttrKey.RPC_ERROR_STACK, getProp error "stack") ],
            Event.setStatus span SpanStatusCode.ERROR (getProp error "message") ]
    ∧ (setSpanWithError span error w)._spanNotEnded = w._spanNotEnded
    ∧ (∀ s, endCount (setSpanWithError span error w).log s = endCount w.log s)
    ∧ (∀ m, getProp (Val.obj [("message", m)]) "name" = Val.undefined
          ∧ getProp (Val.obj [("message", m)]) "message" = m
          ∧ getProp (Val.obj [("message", m)]) "stack" = Val.undefined) := by
  refine ⟨?_, ?_, ?_, ?_⟩
  · simp [setSpanWithError, h, World.emit]
  · simp [setSpanWithError, h, World.emit]
  · intro s
    simp [setSpanWithError, h, World.emit, endCount, Event.isEndOf]
  · intro m
    simp [getProp, lookupProp]

/-- Witness for C3 amended: the plain-data error `{message: "bad request"}`. -/
theorem setSpanWithError_present_witness :
    truthy plainError = true
    ∧ (setSpanWithError exampleSpan plainError (World.init [])).log =
        [ Event.setAttributes exampleSpan
            [ (AttrKey.RPC_ERROR_NAME, Val.undefined),
              (AttrKey.RPC_ERROR_MESSAGE, Val.str "bad request"),
              (AttrKey.RPC_ERROR_STACK, Val.undefined) ],
          Event.setStatus exampleSpan SpanStatusCode.ERROR (Val.str "bad request") ] :=
  ⟨rfl, (setSpanWithError_present exampleSpan plainError (World.init []) rfl).1⟩

/-- C8 as stated fails: with `requireParentForClientSpans: true` configured
and no active span, `_startRpcSpan` for a CLIENT span calls
`tracer.startSpan` and returns a valid span. -/
theorem startRpcSpan_capital_For_not_read :
    lookupProp (getConfig capitalForWorld) "requireParentForClientSpans" = Val.bool true
    ∧ getSpan ROOT_CONTEXT = none
    ∧ (_startRpcSpan "MushiClient.connect" .CLIENT [] ROOT_CONTEXT capitalForWorld).1.spanContext
        ≠ INVALID_SPAN_CONTEXT
    ∧ (_startRpcSpan "MushiClient.connect" .CLIENT [] ROOT_CONTEXT capitalForWorld).2.log =
        [ Event.startSpan "MushiClient.connect" .CLIENT [] ROOT_CONTEXT exampleSpan ] := by
  refine ⟨rfl, rfl, ?_, rfl⟩
  decide

/-- C8 amended: the option read is `requireParentforClientSpans` (lower-case
`for`).  When it is `true` and the context has no span, `_startRpcSpan` for a
CLIENT span returns a new span wrapping `INVALID_SPAN_CONTEXT`, registers it
and forwards nothing to the tracer; when it is absent, `tracer.startSpan` is
called once and its span is returned. -/
theorem startRpcSpan_requireParentforClientSpans (name : String)
    (attributes : Attributes) (ctx : Context) (w : World) (hctx : getSpan ctx = none) :
    (lookupProp (getConfig w) "requireParentforClientSpans" = Val.bool true →
      (_startRpcSpan name .CLIENT attributes ctx w).1 =
          { id := w.nextId, spanContext := INVALID_SPAN_CONTEXT }
      ∧ (_startRpcSpan name .CLIENT attributes ctx w).2.log = w.log
      ∧ (_startRpcSpan name .CLIENT attributes ctx w).1 ∈
          (_startRpcSpan name .CLIENT attributes ctx w).2._spanNotEnded)
    ∧ (lookupProp (getConfig w) "requireParentforClientSpans" = Val.undefined →
      (_startRpcSpan name .CLIENT attributes ctx w).1 =
          { id := w.nextId, spanContext := { isValid := true, isRemote := false } }
      ∧ (_startRpcSpan name .CLIENT attributes ctx w).2.log =
          w.log ++ [ Event.startSpan name .CLIENT attributes ctx
            (_startRpcSpan name .CLIENT attributes ctx w).1 ]) := by
  constructor
  · intro hreq
    refine ⟨?_, ?_, startRpcSpan_mem name .CLIENT attributes ctx w⟩
    · simp [_startRpcSpan, hctx, hreq, strictlyTrue, wrapSpanContext]
    · simp [_startRpcSpan, hctx, hreq, strictlyTrue, wrapSpanContext]
  · intro hreq
    constructor
    · simp [_startRpcSpan, hctx, hreq, strictlyTrue, tracerStartSpan]
    · simp [_startRpcSpan, hctx, hreq, strictlyTrue, tracerStartSpan, World.emit]

/-- Witness for C8 amended: the option set to `true`, and the default
configuration, both with the root context. -/
theorem startRpcSpan_requireParentforClientSpans_witness :
    (getSpan ROOT_CONTEXT = none
      ∧ lookupProp (getConfig requireParentWorld) "requireParentforClientSpans" = Val.bool true
      ∧ (_startRpcSpan "MushiClient.connect" .CLIENT [] ROOT_CONTEXT requireParentWorld).2.log
          = [])
    ∧ (lookupProp (getConfig defaultWorld) "requireParentforClientSpans" = Val.undefined
      ∧ (_startRpcSpan "MushiClient.connect" .CLIENT [] ROOT_CONTEXT defaultWorld).1 =
          exampleSpan) :=
  ⟨⟨rfl, rfl,
      ((startRpcSpan_requireParentforClientSpans "MushiClient.connect" [] ROOT_CONTEXT
        requireParentWorld rfl).1 rfl).2.1⟩,
    ⟨rfl,
      ((startRpcSpan_requireParentforClientSpans "MushiClient.connect" [] ROOT_CONTEXT
        defaultWorld rfl).2 rfl).1⟩⟩

/-! ## Argument-list lemmas -/

theorem argAt_setIdx_same (l : List Arg) (i : Nat) (v : Arg) :
    argAt (setIdx l i v) i = v := by
  unfold argAt
  induction i generalizing l with
  | zero => cases l <;> simp [setIdx]
  | succ k ih => cases l <;> simp only [setIdx, List.getD_cons_succ] <;> exact ih _

theorem argAt_setIdx_other (l : List Arg) (i j : Nat) (v : Arg) (h : j ≠ i) :
    argAt (setIdx l i v) j = argAt l j := by
  unfold argAt
  induction i generalizing l j with
  | zero =>
    cases l with
    | nil => cases j <;> simp_all [setIdx]
    | cons x rest => cases j <;> simp_all [setIdx]
  | succ k ih =>
    cases l with
    | nil =>
      cases j with
      | zero => simp [setIdx]
      | succ m =>
        simp only [setIdx, List.getD_cons_succ]
        rw [ih [] m (by omega)]
        simp
    | cons x rest =>
      cases j with
      | zero => simp [setIdx]
      | succ m =>
        simp only [setIdx, List.getD_cons_succ]
        exact ih rest m (by omega)

theorem argAt_map_val (args : List Val) (i : Nat) :
    argAt (args.map Arg.val) i = Arg.val (args.getD i Val.undefined) := by
  unfold argAt
  simp

theorem lookupProp_setProp (props : Props) (k key : String) (v : Val) :
    lookupProp (setProp props k v) key = if k = key then v else lookupProp props key := by
  induction props with
  | nil => simp [setProp, lookupProp]
  | cons head rest ih =>
    obtain ⟨a, x⟩ := head
    by_cases hak : a = k
    · subst hak
      by_cases hkey : a = key <;> simp [setProp, lookupProp, hkey]
    · by_cases hkey : k = key
      · subst hkey
        simp [setProp, lookupProp, hak, ih]
      · by_cases hakey : a = key
        · subst hakey
          simp [setProp, lookupProp, hak, hkey]
        · simp [setProp, lookupProp, hak, hkey, hakey, ih]

theorem lookupProp_inject (fields : List (String × String)) (props : Props) (key : String) :
    lookupProp (fields.foldl (fun acc kv => setProp acc kv.1 (Val.str kv.2)) props) key =
      match lastField fields key with
      | some v => Val.str v
      | none => lookupProp props key := by
  induction fields generalizing props with
  | nil => simp [lastField]
  | cons head rest ih =>
    obtain ⟨k, v⟩ := head
    simp only [List.foldl_cons, lastField]
    rw [ih]
    cases hrest : lastField rest key with
    | some x => simp
    | none =>
      by_cases hk : k = key <;> simp [lookupProp_setProp, hk]

theorem argAt_wrapped_other (args : List Val) (span : Span) (active : Context) (slot : Nat)
    (h : findCallbackIdx args ≠ some slot) :
    argAt (match findCallbackIdx args with
      | some i =>
        setIdx (args.map Arg.val) i (patchedCallback span (args.getD i Val.undefined) active)
      | none => args.map Arg.val) slot = Arg.val (args.getD slot Val.undefined) := by
  cases hidx : findCallbackIdx args with
  | none => exact argAt_map_val args slot
  | some i =>
    have hne : slot ≠ i := by
      intro heq
      apply h
      rw [hidx, heq]
    simp only []
    rw [argAt_setIdx_other _ i slot _ hne]
    exact argAt_map_val args slot

theorem headers_slot_not_callback (args : List Val) :
    findCallbackIdx args ≠ some (if findCallbackIdx args = some 2 then 3 else 2) := by
  by_cases h : findCallbackIdx args = some 2
  · simp [h]
  · simp [h]

theorem functionTyped_eq (v : Val) : functionTyped v = isFunction v := by
  cases v <;> rfl

theorem headers_slot_eq (args : List Val) :
    (if findCallbackIdx args = some 2 then 3 else 2) = expectedHeadersSlot args := by
  match args with
  | [] => simp [findCallbackIdx, expectedHeadersSlot]
  | [a0] =>
    by_cases h0 : isFunction a0 = true <;> simp [findCallbackIdx, expectedHeadersSlot, h0]
  | [a0, a1] =>
    by_cases h0 : isFunction a0 = true <;> by_cases h1 : isFunction a1 = true <;>
      simp [findCallbackIdx, expectedHeadersSlot, h0, h1]
  | a0 :: a1 :: a2 :: rest =>
    by_cases h0 : isFunction a0 = true <;> by_cases h1 : isFunction a1 = true <;>
      by_cases h2 : isFunction a2 = true <;>
      simp [findCallbackIdx, expectedHeadersSlot, functionTyped_eq, h0, h1, h2]

theorem inject_supplied (fields : List (String × String)) (supplied : Val) :
    inject fields
      (if (Arg.val supplied).isObject then Arg.val supplied else Arg.val (Val.obj [])) =
      Arg.val (Val.obj
        (fields.foldl (fun acc kv => setProp acc kv.1 (Val.str kv.2))
          ((plainMap supplied).getD []))) := by
  cases supplied <;>
    simp [plainMap, Arg.isObject, isObject, typeofIsObject, isArray, isNull, inject]

/-- C4: the wrapped client call applies the original once, to an argument
list whose headers slot is index 3 when the first function-typed argument of
the call is at index 2 and index 2 otherwise.  When the caller supplied a
plain key/value map in that slot the original finds there that map after the
propagator has set its fields on it, and otherwise an empty map after the
same: every injected key reads its last injected value and every other key
reads what the caller supplied (nothing, for the empty map). -/
theorem clientCall_headers_slot (original : List Arg → Except Val Val)
    (propagator : Context → List (String × String)) (toStr : Val → String)
    (host port : Val) (args : List Val) (active : Context) (w : World) :
    let started := clientCallSpan toStr host port args active w
    let ctx := setSpan active started.1
    let slot := expectedHeadersSlot args
    let base : Props := (plainMap (args.getD slot Val.undefined)).getD []
    ∃ (received : List Arg) (headers : Props),
      (clientCall original propagator toStr host port args active w).2.log =
          started.2.log ++ [Event.call received]
      ∧ (clientCall original propagator toStr host port args active w).1 = original received
      ∧ argAt received slot = Arg.val (Val.obj headers)
      ∧ headers = (propagator ctx).foldl (fun acc kv => setProp acc kv.1 (Val.str kv.2)) base
      ∧ ∀ key, lookupProp headers key =
          match lastField (propagator ctx) key with
          | some v => Val.str v
          | none => lookupProp base key := by
  intro started ctx slot base
  have hslotEq : (if findCallbackIdx args = some 2 then 3 else 2) = slot := headers_slot_eq args
  have hslot : argAt (match findCallbackIdx args with
      | some i =>
        setIdx (args.map Arg.val) i (patchedCallback started.1 (args.getD i Val.undefined) ctx)
      | none => args.map Arg.val) slot = Arg.val (args.getD slot Val.undefined) :=
    argAt_wrapped_other args started.1 ctx slot (by
      rw [← hslotEq]
      exact headers_slot_not_callback args)
  have hbase : inject (propagator ctx)
      (if (Arg.val (args.getD slot Val.undefined)).isObject then
        Arg.val (args.getD slot Val.undefined) else Arg.val (Val.obj [])) =
      Arg.val (Val.obj
        ((propagator ctx).foldl (fun acc kv => setProp acc kv.1 (Val.str kv.2)) base)) :=
    inject_supplied (propagator ctx) (args.getD slot Val.undefined)
  refine ⟨_, (propagator ctx).foldl (fun acc kv => setProp acc kv.1 (Val.str kv.2)) base,
    rfl, rfl, ?_, rfl, ?_⟩
  · simp only [hslotEq]
    rw [argAt_setIdx_same]
    simp only [hslot, hbase]
  · intro key
    exact lookupProp_inject _ _ _

/-- The call `client.call("Foo", {}, cb)`: the callback is third and the fourth
argument is omitted, so the original receives the method, the parameter
object, the wrapped callback and a new headers object holding the injected
field. -/
theorem clientCall_callback_third :
    (clientCall quietCall traceparentPropagator methodName (Val.str "127.0.0.1") (Val.num 9000)
        [Val.str "Foo", Val.obj [], userCallback] ROOT_CONTEXT defaultWorld).2.log =
      [ Event.startSpan "MushiClient.call Foo" SpanKind.CLIENT
          [ (AttrKey.NET_HOST_NAME, Val.str "localhost"),
            (AttrKey.NET_PEER_NAME, Val.str "127.0.0.1"),
            (AttrKey.NET_PEER_PORT, Val.num 9000),
            (AttrKey.RPC_METHOD, Val.str "Foo") ]
          ROOT_CONTEXT exampleSpan,
        Event.call
          [ Arg.val (Val.str "Foo"),
            Arg.val (Val.obj []),
            Arg.patchedCallback exampleSpan (setSpan ROOT_CONTEXT exampleSpan) userCallback,
            Arg.val (Val.obj
              [("traceparent",
                Val.str "00-0af7651916cd43dd8448eb211c80319c-b7ad6b7169203331-01")]) ] ] := rfl

/-- The call `client.call("Foo", cb)`: the callback is second, so the headers
object is created at index 2. -/
theorem clientCall_callback_second :
    (clientCall quietCall traceparentPropagator methodName (Val.str "127.0.0.1") (Val.num 9000)
        [Val.str "Foo", userCallback] ROOT_CONTEXT defaultWorld).2.log =
      [ Event.startSpan "MushiClient.call Foo" SpanKind.CLIENT
          [ (AttrKey.NET_HOST_NAME, Val.str "localhost"),
            (AttrKey.NET_PEER_NAME, Val.str "127.0.0.1"),
            (AttrKey.NET_PEER_PORT, Val.num 9000),
            (AttrKey.RPC_METHOD, Val.str "Foo") ]
          ROOT_CONTEXT exampleSpan,
        Event.call
          [ Arg.val (Val.str "Foo"),
            Arg.patchedCallback exampleSpan (setSpan ROOT_CONTEXT exampleSpan) userCallback,
            Arg.val (Val.obj
              [("traceparent",
                Val.str "00-0af7651916cd43dd8448eb211c80319c-b7ad6b7169203331-01")]) ] ] := rfl

theorem findCallbackIdx_of_first (args : List Val)
    (h : isFunction (args.getD 0 Val.undefined) = true) : findCallbackIdx args = some 0 := by
  cases args with
  | nil => simp [isFunction] at h
  | cons x rest =>
    simp only [List.getD_cons_zero] at h
    simp [findCallbackIdx, h]

/-! ## Log growth -/

theorem extends_refl (w : World) : Extends w w := ⟨[], by simp⟩

theorem extends_trans (w1 w2 w3 : World) (h12 : Extends w1 w2) (h23 : Extends w2 w3) :
    Extends w1 w3 := by
  obtain ⟨t1, h1⟩ := h12
  obtain ⟨t2, h2⟩ := h23
  exact ⟨t1 ++ t2, by rw [h2, h1, List.append_assoc]⟩

theorem extends_emit (w : World) (e : Event) : Extends w (w.emit e) := ⟨[e], rfl⟩

theorem extends_ite (c : Prop) [Decidable c] (w a b : World) (ha : Extends w a)
    (hb : Extends w b) : Extends w (if c then a else b) := by
  split
  · exact ha
  · exact hb

theorem extends_setSpanWithError (span : Span) (error : Val) (w : World) :
    Extends w (setSpanWithError span error w) := by
  unfold setSpanWithError
  split
  · exact extends_refl w
  · exact extends_trans _ _ _ (extends_emit w _) (extends_emit _ _)

theorem extends_closeSpan (span : Span) (w : World) : Extends w (_closeSpan span w) := by
  by_cases h : span ∈ w._spanNotEnded
  · rw [closeSpan_of_mem span w h]
    exact ⟨[Event.spanEnd span], rfl⟩
  · rw [closeSpan_of_not_mem span w h]
    exact extends_refl w

theorem extends_invokeConnectCallback (span : Span) (newContext : Context) (callback : Val)
    (args : List Val) (w : World) :
    Extends w (invokeConnectCallback span newContext callback args w) := by
  simp only [invokeConnectCallback]
  refine extends_trans _ _ _ ?_
    (extends_trans _ _ _ (extends_closeSpan span _) (extends_emit _ _))
  split
  · exact extends_setSpanWithError span _ w
  · exact extends_refl w

theorem extends_invokePatchedCallback (span : Span) (bound : Context) (callback : Val)
    (args : List Val) (w : World) :
    Extends w (invokePatchedCallback span bound callback args w) := by
  simp only [invokePatchedCallback]
  exact extends_trans _ _ _ (extends_setSpanWithError span _ w)
    (extends_trans _ _ _ (extends_closeSpan span _) (extends_emit _ _))

theorem extends_invoke (f : Arg) (args : List Val) (active : Context) (w : World) :
    Extends w (invoke f args active w) := by
  cases f with
  | val v =>
    cases v <;> first
      | exact extends_refl w
      | exact extends_emit w _
  | patchedCallback span bound callback =>
    exact extends_invokePatchedCallback span bound callback args w
  | connectCallback span newContext callback =>
    exact extends_invokeConnectCallback span newContext callback args w

theorem findCallbackIdx_of_functionTyped (args : List Val)
    (h : functionTyped (args.getD 0 Val.undefined) = true) : findCallbackIdx args = some 0 :=
  findCallbackIdx_of_first args (by rw [← functionTyped_eq]; exact h)

theorem traceClientConnection_extends (original : ConnectBehaviour) (host port : Val)
    (args : List Val) (active : Context) (w : World)
    (hidx : findCallbackIdx args = some 0) :
    Extends
      ((connectSpan host port active w).2.emit
        (Event.connect (setIdx (args.map Arg.val) 0
          (Arg.connectCallback (connectSpan host port active w).1
            (setSpan active (connectSpan host port active w).1)
            (args.getD 0 Val.undefined)))))
      (_traceClientConnection original host port args active w).2 := by
  have hhc : decide (findCallbackIdx args = some 0) = true := by simp [hidx]
  obtain ⟨callsBack, outcome⟩ := original
  cases callsBack with
  | none =>
    cases outcome with
    | ok client =>
      simp only [_traceClientConnection, hhc, Bool.not_true, Bool.false_eq_true, if_true,
        if_false]
      exact extends_refl _
    | error error =>
      simp only [_traceClientConnection, hhc, if_true]
      exact extends_trans _ _ _ (extends_setSpanWithError _ _ _) (extends_closeSpan _ _)
  | some cbArgs =>
    cases outcome with
    | ok client =>
      simp only [_traceClientConnection, hhc, Bool.not_true, Bool.false_eq_true, if_true,
        if_false]
      exact extends_ite _ _ _ _ (extends_invoke _ _ _ _) (extends_refl _)
    | error error =>
      simp only [_traceClientConnection, hhc, if_true]
      exact extends_trans _ _ _
        (extends_ite _ _ _ _ (extends_invoke _ _ _ _) (extends_refl _))
        (extends_trans _ _ _ (extends_setSpanWithError _ _ _) (extends_closeSpan _ _))

theorem invokeConnectCallback_log (span : Span) (newContext : Context) (callback : Val)
    (args : List Val) (w : World) :
    (invokeConnectCallback span newContext callback args w).log =
        w.log
          ++ (if truthy (args.getD 0 Val.undefined) then
                [ Event.setAttributes span
                    [ (AttrKey.RPC_ERROR_NAME, getProp (args.getD 0 Val.undefined) "name"),
                      (AttrKey.RPC_ERROR_MESSAGE, getProp (args.getD 0 Val.undefined) "message"),
                      (AttrKey.RPC_ERROR_STACK, getProp (args.getD 0 Val.undefined) "stack") ],
                  Event.setStatus span SpanStatusCode.ERROR
                    (getProp (args.getD 0 Val.undefined) "message") ]
              else [])
          ++ (if span ∈ w._spanNotEnded then [Event.spanEnd span] else [])
          ++ [Event.callback callback args newContext]
    ∧ span ∉ (invokeConnectCallback span newContext callback args w)._spanNotEnded := by
  constructor
  · simp only [invokeConnectCallback, World.emit]
    by_cases ht : truthy (args.getD 0 Val.undefined) = true
    · rw [if_pos ht, if_pos ht]
      by_cases hm : span ∈ w._spanNotEnded
      · have hm2 : span ∈ (setSpanWithError span (args.getD 0 Val.undefined) w)._spanNotEnded := by
          rw [setSpanWithError_spanNotEnded]
          exact hm
        rw [closeSpan_of_mem _ _ hm2, if_pos hm, setSpanWithError_log _ _ _ ht]
      · have hm2 : span ∉ (setSpanWithError span (args.getD 0 Val.undefined) w)._spanNotEnded := by
          rw [setSpanWithError_spanNotEnded]
          exact hm
        rw [closeSpan_of_not_mem _ _ hm2, if_neg hm, setSpanWithError_log _ _ _ ht]
        simp
    · rw [if_neg ht, if_neg ht]
      by_cases hm : span ∈ w._spanNotEnded
      · rw [closeSpan_of_mem _ _ hm, if_pos hm]
        simp
      · rw [closeSpan_of_not_mem _ _ hm, if_neg hm]
        simp
  · simp only [invokeConnectCallback, World.emit]
    exact not_mem_after_closeSpan span _

/-- C7 as stated fails: `connect(cb)` throws `Error("boom")`, so the span is
annotated and ended at once; when the callback is invoked later with an
error, that annotation reaches the span after its `span.end()`, no `end`
stands between it and the original callback, and the status set at the throw
is still there. -/
theorem callback_after_failed_connect :
    functionTyped ([userCallback].getD 0 Val.undefined) = true
    ∧ (invoke
        (Arg.connectCallback exampleSpan (setSpan ROOT_CONTEXT exampleSpan) userCallback)
        [plainError, Val.undefined] ROOT_CONTEXT
        (_traceClientConnection throwingConnect (Val.str "127.0.0.1") (Val.num 9000)
          [userCallback] ROOT_CONTEXT defaultWorld).2).log =
      [ Event.startSpan "MushiClient.connect" SpanKind.CLIENT
          [ (AttrKey.NET_HOST_NAME, Val.str "localhost"),
            (AttrKey.NET_PEER_NAME, Val.str "127.0.0.1"),
            (AttrKey.NET_PEER_PORT, Val.num 9000) ]
          ROOT_CONTEXT exampleSpan,
        Event.connect
          [ Arg.connectCallback exampleSpan (setSpan ROOT_CONTEXT exampleSpan) userCallback ],
        Event.setAttributes exampleSpan
          [ (AttrKey.RPC_ERROR_NAME, Val.str "Error"),
            (AttrKey.RPC_ERROR_MESSAGE, Val.str "boom"),
            (AttrKey.RPC_ERROR_STACK, Val.str "Error: boom") ],
        Event.setStatus exampleSpan SpanStatusCode.ERROR (Val.str "boom"),
        Event.spanEnd exampleSpan,
        Event.setAttributes exampleSpan
          [ (AttrKey.RPC_ERROR_NAME, Val.undefined),
            (AttrKey.RPC_ERROR_MESSAGE, Val.str "bad request"),
            (AttrKey.RPC_ERROR_STACK, Val.undefined) ],
        Event.setStatus exampleSpan SpanStatusCode.ERROR (Val.str "bad request"),
        Event.callback userCallback [plainError, Val.undefined]
          (setSpan ROOT_CONTEXT exampleSpan) ]
    ∧ (invoke
        (Arg.connectCallback exampleSpan (setSpan ROOT_CONTEXT exampleSpan) userCallback)
        [Val.null, Val.obj []] ROOT_CONTEXT
        (_traceClientConnection throwingConnect (Val.str "127.0.0.1") (Val.num 9000)
          [userCallback] ROOT_CONTEXT defaultWorld).2).log =
      [ Event.startSpan "MushiClient.connect" SpanKind.CLIENT
          [ (AttrKey.NET_HOST_NAME, Val.str "localhost"),
            (AttrKey.NET_PEER_NAME, Val.str "127.0.0.1"),
            (AttrKey.NET_PEER_PORT, Val.num 9000) ]
          ROOT_CONTEXT exampleSpan,
        Event.connect
          [ Arg.connectCallback exampleSpan (setSpan ROOT_CONTEXT exampleSpan) userCallback ],
        Event.setAttributes exampleSpan
          [ (AttrKey.RPC_ERROR_NAME, Val.str "Error"),
            (AttrKey.RPC_ERROR_MESSAGE, Val.str "boom"),
            (AttrKey.RPC_ERROR_STACK, Val.str "Error: boom") ],
        Event.setStatus exampleSpan SpanStatusCode.ERROR (Val.str "boom"),
        Event.spanEnd exampleSpan,
        Event.callback userCallback [Val.null, Val.obj []]
          (setSpan ROOT_CONTEXT exampleSpan) ] :=
  ⟨rfl, rfl, rfl⟩

/-- C7 amended: when the wrapped `connect` is called with a function as first
argument, the original receives the callback replacement in its place.  Each
invocation of that replacement, in whatever later state and with whatever
arguments, forwards in this order: the error annotation when the first
argument is truthy, `span.end()` when the span is still in the not-ended set,
and the original callback with the same arguments under the span's context;
the span is out of the set afterwards.  With a `null` first argument the
invocation hands the span nothing but that `end`.  After a connect that
returned without calling back the span is still in the set, so the first
invocation ends it between annotation and callback. -/
theorem traceClientConnection_callback_order (original : ConnectBehaviour)
    (host port : Val) (args : List Val) (active : Context) (w : World)
    (hcb : functionTyped (args.getD 0 Val.undefined) = true) :
    let span := (connectSpan host port active w).1
    let newContext := setSpan active span
    let wrapped := Arg.connectCallback span newContext (args.getD 0 Val.undefined)
    let r := _traceClientConnection original host port args active w
    (∃ tail, r.2.log = (connectSpan host port active w).2.log ++
        Event.connect (setIdx (args.map Arg.val) 0 wrapped) :: tail)
    ∧ (∀ client, original.callsBack = none → original.outcome = Except.ok client →
        r.1 = Except.ok client ∧ span ∈ r.2._spanNotEnded)
    ∧ (∀ (later : World) (cbArgs : List Val) (laterActive : Context),
        (invoke wrapped cbArgs laterActive later).log =
          later.log
            ++ (if truthy (cbArgs.getD 0 Val.undefined) then
                  [ Event.setAttributes span
                      [ (AttrKey.RPC_ERROR_NAME, getProp (cbArgs.getD 0 Val.undefined) "name"),
                        (AttrKey.RPC_ERROR_MESSAGE,
                          getProp (cbArgs.getD 0 Val.undefined) "message"),
                        (AttrKey.RPC_ERROR_STACK, getProp (cbArgs.getD 0 Val.undefined) "stack") ],
                    Event.setStatus span SpanStatusCode.ERROR
                      (getProp (cbArgs.getD 0 Val.undefined) "message") ]
                else [])
            ++ (if span ∈ later._spanNotEnded then [Event.spanEnd span] else [])
            ++ [Event.callback (args.getD 0 Val.undefined) cbArgs newContext]
        ∧ span ∉ (invoke wrapped cbArgs laterActive later)._spanNotEnded)
    ∧ (∀ (later : World) (handle : Val) (laterActive : Context),
        (invoke wrapped [Val.null, handle] laterActive later).log =
          later.log
            ++ (if span ∈ later._spanNotEnded then [Event.spanEnd span] else [])
            ++ [Event.callback (args.getD 0 Val.undefined) [Val.null, handle] newContext]) := by
  intro span newContext wrapped r
  have hidx : findCallbackIdx args = some 0 := findCallbackIdx_of_functionTyped args hcb
  refine ⟨?_, ?_, ?_, ?_⟩
  · obtain ⟨tail, ht⟩ := traceClientConnection_extends original host port args active w hidx
    refine ⟨tail, ?_⟩
    rw [ht]
    simp [World.emit, wrapped, newContext, span]
  · intro client hlater hret
    have hr : r = (Except.ok client,
        (connectSpan host port active w).2.emit
          (Event.connect (setIdx (args.map Arg.val) 0 wrapped))) := by
      simp [r, _traceClientConnection, hidx, hlater, hret, wrapped, newContext, span]
    rw [hr]
    exact ⟨rfl, startRpcSpan_mem _ _ _ _ _⟩
  · intro later cbArgs laterActive
    exact invokeConnectCallback_log span newContext (args.getD 0 Val.undefined) cbArgs later
  · intro later handle laterActive
    have h : (invoke wrapped [Val.null, handle] laterActive later).log = _ :=
      (invokeConnectCallback_log span newContext (args.getD 0 Val.undefined)
        [Val.null, handle] later).1
    simpa [truthy] using h

/-! ## Stability of the end count under the interceptors -/

theorem stable_refl (s : Span) (w : World) : Stable s w w := ⟨rfl, id⟩

theorem stable_trans (s : Span) (w1 w2 w3 : World) (h12 : Stable s w1 w2)
    (h23 : Stable s w2 w3) : Stable s w1 w3 :=
  ⟨h23.1.trans h12.1, fun h => h23.2 (h12.2 h)⟩

theorem stable_emit (s : Span) (w : World) (e : Event) (h : Event.isEndOf s e = false) :
    Stable s w (w.emit e) := by
  constructor
  · simp [potential, World.emit, endCount, h]
  · intro hn
    exact hn

theorem stable_setWrite (s : Span) (w : World) (conn : Nat) (f : WriteFn) :
    Stable s w (w.setWrite conn f) := ⟨rfl, id⟩

theorem stable_setSpanWithError (s span : Span) (error : Val) (w : World) :
    Stable s w (setSpanWithError span error w) := by
  unfold setSpanWithError
  split
  · exact stable_refl s w
  · refine stable_trans s _ _ _ (stable_emit s w _ ?_) (stable_emit s _ _ ?_) <;> rfl

theorem stable_closeSpan (s span : Span) (w : World) : Stable s w (_closeSpan span w) := by
  by_cases hmem : span ∈ w._spanNotEnded
  · rw [closeSpan_of_mem span w hmem]
    by_cases hs : s = span
    · subst hs
      constructor
      · simp [potential, endCount, Event.isEndOf, mem_spanNotEndedDelete, hmem]
      · intro hn
        exact absurd hmem hn
    · have hne : (span == s) = false := by
        simp only [beq_eq_false_iff_ne, ne_eq]
        exact fun h => hs h.symm
      constructor
      · simp [potential, endCount, Event.isEndOf, mem_spanNotEndedDelete, hs, hne]
      · intro hn
        simp [mem_spanNotEndedDelete, hn]
  · rw [closeSpan_of_not_mem span w hmem]
    exact stable_refl s w

theorem stable_onFinishError (s span : Span) (error result : Val) (w : World) :
    Stable s w (onFinishError span error result w).2 := by
  unfold onFinishError
  split
  · exact stable_trans s _ _ _ (stable_setSpanWithError s span error w)
      (stable_closeSpan s span _)
  · exact stable_refl s w

theorem stable_safeExecuteInTheMiddle (s span : Span)
    (execute : World → Except Val Val × World) (w : World)
    (h : Stable s w (execute w).2) :
    Stable s w (safeExecuteInTheMiddle execute (onFinishError span) w).2 := by
  have hfin : ∀ error result, Stable s w (onFinishError span error result (execute w).2).2 :=
    fun error result => stable_trans s _ _ _ h (stable_onFinishError s span error result _)
  unfold safeExecuteInTheMiddle
  simp only
  split
  · exact hfin _ _
  · split
    · exact hfin _ _
    · exact hfin _ _

theorem stable_callWrite (origWrite : Nat → Val → Except Val Val) (s : Span)
    (f : WriteFn) : ∀ (this : Nat) (message : Val) (w : World),
      Stable s w (callWrite origWrite f this message w).2 := by
  induction f with
  | original =>
    intro this message w
    exact stable_emit s w (Event.write this message) rfl
  | wrapper conn span originalWrite ih =>
    intro this message w
    have hran : Stable s w
        (safeExecuteInTheMiddle (fun v => callWrite origWrite originalWrite this message v)
          (onFinishError span) (w.setWrite conn originalWrite)).2 :=
      stable_trans s _ _ _ (stable_setWrite s w conn originalWrite)
        (stable_safeExecuteInTheMiddle s span _ _ (ih this message _))
    simp only [callWrite]
    split
    · exact hran
    · split
      · exact stable_trans s _ _ _ hran
          (stable_trans s _ _ _ (stable_setSpanWithError s span _ _) (stable_closeSpan s span _))
      · exact stable_trans s _ _ _ hran (stable_closeSpan s span _)

theorem stable_writes (origWrite : Nat → Val → Except Val Val) (s : Span) (conn : Nat)
    (writes : List Val) : ∀ w : World,
      Stable s w (writes.foldl
        (fun acc message => (callWrite origWrite (acc.connWrite conn) conn message acc).2) w) := by
  induction writes with
  | nil => intro w; exact stable_refl s w
  | cons message rest ih =>
    intro w
    exact stable_trans s _ _ _ (stable_callWrite origWrite s _ conn message w) (ih _)

theorem stable_runOriginal (origWrite : Nat → Val → Except Val Val) (s : Span)
    (handler : Handler) (event : String) (res : Response) (active : Context) (w : World) :
    Stable s w (runOriginal origWrite handler event res active w).2 :=
  stable_trans s _ _ _ (stable_emit s w (Event.dispatch event active) rfl)
    (stable_writes origWrite s res._conn _ _)

theorem endCount_of_stable_closed (s : Span) (w w2 : World) (h : Stable s w w2)
    (hclosed : s ∉ w2._spanNotEnded) : endCount w2.log s = potential w s := by
  have := h.1
  simp only [potential, hclosed, if_false] at this
  simpa [potential] using this

theorem startRpcSpan_endCount (name : String) (kind : SpanKind) (attributes : Attributes)
    (ctx : Context) (w : World) (s : Span) :
    endCount (_startRpcSpan name kind attributes ctx w).2.log s = endCount w.log s := by
  simp only [_startRpcSpan]
  split
  · split
    · rfl
    · simp [tracerStartSpan, World.emit, endCount, Event.isEndOf]
  · split
    · rfl
    · simp [tracerStartSpan, World.emit, endCount, Event.isEndOf]

theorem startRpcSpan_connWrite (name : String) (kind : SpanKind) (attributes : Attributes)
    (ctx : Context) (w : World) :
    (_startRpcSpan name kind attributes ctx w).2.connWrite = w.connWrite := by
  simp only [_startRpcSpan]
  split <;> split <;> rfl

theorem startRpcSpan_potential (name : String) (kind : SpanKind) (attributes : Attributes)
    (ctx : Context) (w : World) :
    potential (_startRpcSpan name kind attributes ctx w).2
      (_startRpcSpan name kind attributes ctx w).1 =
      endCount w.log (_startRpcSpan name kind attributes ctx w).1 + 1 := by
  simp [potential, startRpcSpan_mem, startRpcSpan_endCount]

/-- C5: for every event other than the control event, when the original
handler throws a (truthy) error value synchronously, the wrapped dispatch
throws that same value, the span started for the request under the name
`MushiServer <method>` has been handed the error's name, message and stack
and status ERROR, and exactly one `span.end()` has been forwarded for it since
the dispatch began, whatever the handler wrote before throwing. -/
theorem serverHandle_sync_throw (origWrite : Nat → Val → Except Val Val)
    (extract : Val → Context) (handler : Handler) (event : String) (req : Request)
    (res : Response) (active : Context) (w : World) (error : Val)
    (hevent : event ≠ "MUSHI_DONE") (hthrow : handler.outcome = Except.error error)
    (herr : truthy error = true) :
    let span := (serverSpan extract req res w).1
    let r := serverHandle origWrite extract handler event req res active w
    r.1 = Except.error error
    ∧ endCount r.2.log span = endCount w.log span + 1
    ∧ span ∉ r.2._spanNotEnded
    ∧ (∃ before closing, r.2.log =
          before ++
            [ Event.setAttributes span
                [ (AttrKey.RPC_ERROR_NAME, getProp error "name"),
                  (AttrKey.RPC_ERROR_MESSAGE, getProp error "message"),
                  (AttrKey.RPC_ERROR_STACK, getProp error "stack") ],
              Event.setStatus span SpanStatusCode.ERROR (getProp error "message") ]
            ++ closing
        ∧ (closing = [] ∨ closing = [Event.spanEnd span]))
    ∧ (strictlyTrue (lookupProp (getConfig w) "requireParentforServerSpans") = false →
        (serverSpan extract req res w).2.log =
          w.log ++
            [ Event.startSpan ("MushiServer " ++ res._method) SpanKind.SERVER
                [ (AttrKey.RPC_SYSTEM, Val.str "@upyun/dendenmushi"),
                  (AttrKey.RPC_METHOD, Val.str res._method) ]
                (extract req.headers) span ]) := by
  intro span r
  let w1 := (serverSpan extract req res w).2.setWrite res._conn
    (WriteFn.wrapper res._conn span ((serverSpan extract req res w).2.connWrite res._conn))
  let wH := (runOriginal origWrite handler event res
    (setRPCMetadata (setSpan (extract req.headers) span) span) w1).2
  have hr : r = (Except.error error, _closeSpan span (setSpanWithError span error wH)) := by
    simp only [r, serverHandle, if_neg hevent, safeExecuteInTheMiddle, runOriginal, hthrow,
      onFinishError, herr, if_true]
    rfl
  have hstable : Stable span (serverSpan extract req res w).2 r.2 := by
    rw [hr]
    exact stable_trans span _ _ _ (stable_setWrite span _ _ _)
      (stable_trans span _ _ _ (stable_runOriginal origWrite span handler event res _ w1)
        (stable_trans span _ _ _ (stable_setSpanWithError span span error wH)
          (stable_closeSpan span span _)))
  have hclosed : span ∉ r.2._spanNotEnded := by
    rw [hr]
    exact not_mem_after_closeSpan span _
  refine ⟨by rw [hr], ?_, hclosed, ?_, ?_⟩
  · rw [endCount_of_stable_closed span _ _ hstable hclosed]
    exact startRpcSpan_potential _ _ _ _ _
  · refine ⟨wH.log, if span ∈ (setSpanWithError span error wH)._spanNotEnded then
      [Event.spanEnd span] else [], ?_, ?_⟩
    · rw [hr]
      by_cases hmem : span ∈ (setSpanWithError span error wH)._spanNotEnded
      · simp only [closeSpan_of_mem _ _ hmem, if_pos hmem,
          setSpanWithError_log span error wH herr]
      · simp only [closeSpan_of_not_mem _ _ hmem, if_neg hmem,
          setSpanWithError_log span error wH herr, List.append_nil]
    · by_cases hmem : span ∈ (setSpanWithError span error wH)._spanNotEnded
      · exact Or.inr (if_pos hmem)
      · exact Or.inl (if_neg hmem)
  · intro hreq
    simp only [serverSpan, _startRpcSpan, hreq, Bool.false_and]
    cases hcur : getSpan (extract req.headers) <;>
      simp [tracerStartSpan, World.emit, span, serverSpan, _startRpcSpan, hreq, hcur]

/-- Witness for C5: event `"call"`, no trace headers, method `Foo`, handler
throwing `Error("boom")`. -/
theorem serverHandle_sync_throw_witness :
    "call" ≠ "MUSHI_DONE"
    ∧ throwingHandler.outcome = Except.error boomError
    ∧ truthy boomError = true
    ∧ (serverHandle origWriteOk extractNone throwingHandler "call" plainRequest resFoo
        ROOT_CONTEXT defaultWorld).1 = Except.error boomError
    ∧ endCount (serverHandle origWriteOk extractNone throwingHandler "call" plainRequest resFoo
        ROOT_CONTEXT defaultWorld).2.log exampleSpan = 1 :=
  ⟨by decide, rfl, rfl,
    (serverHandle_sync_throw origWriteOk extractNone throwingHandler "call" plainRequest resFoo
      ROOT_CONTEXT defaultWorld boomError (by decide) rfl rfl).1,
    (serverHandle_sync_throw origWriteOk extractNone throwingHandler "call" plainRequest resFoo
      ROOT_CONTEXT defaultWorld boomError (by decide) rfl rfl).2.1⟩

/-- The scenario of C5 evaluated: the complete log of the dispatch. -/
theorem serverHandle_boom_log :
    (serverHandle origWriteOk extractNone throwingHandler "call" plainRequest resFoo
        ROOT_CONTEXT defaultWorld).2.log =
      [ Event.startSpan "MushiServer Foo" SpanKind.SERVER
          [ (AttrKey.RPC_SYSTEM, Val.str "@upyun/dendenmushi"),
            (AttrKey.RPC_METHOD, Val.str "Foo") ]
          ROOT_CONTEXT exampleSpan,
        Event.dispatch "call" { span := some exampleSpan, rpcMetadata := some exampleSpan },
        Event.setAttributes exampleSpan
          [ (AttrKey.RPC_ERROR_NAME, Val.str "Error"),
            (AttrKey.RPC_ERROR_MESSAGE, Val.str "boom"),
            (AttrKey.RPC_ERROR_STACK, Val.str "Error: boom") ],
        Event.setStatus exampleSpan SpanStatusCode.ERROR (Val.str "boom"),
        Event.spanEnd exampleSpan ] := rfl

/-- C6 as stated fails: after a dispatch whose handler threw `Error("boom")`
the span has been ended and the transport is still intercepted; the first
write, carrying `[0, "error", "bad request"]`, returns what the transport
returns and hands the span the message and status ERROR, but forwards no
`span.end()` after the write: the only `end` came before it. -/
theorem first_write_after_throw_ends_nothing :
    index errorMessage 1 = Val.str "error"
    ∧ thrownWorld.connWrite 0 = WriteFn.wrapper 0 exampleSpan WriteFn.original
    ∧ endCount thrownWorld.log exampleSpan = 1
    ∧ (callWrite origWriteOk (thrownWorld.connWrite 0) 0 errorMessage thrownWorld).1 =
        Except.ok (Val.bool true)
    ∧ (callWrite origWriteOk (thrownWorld.connWrite 0) 0 errorMessage thrownWorld).2.log =
        thrownWorld.log ++
          [ Event.write 0 errorMessage,
            Event.setAttributes exampleSpan
              [ (AttrKey.RPC_ERROR_NAME, Val.undefined),
                (AttrKey.RPC_ERROR_MESSAGE, Val.str "bad request"),
                (AttrKey.RPC_ERROR_STACK, Val.undefined) ],
            Event.setStatus exampleSpan SpanStatusCode.ERROR (Val.str "bad request") ] :=
  ⟨rfl, rfl, rfl, rfl, rfl⟩

/-- C6 amended: every dispatch of an event other than the control event runs
the original handler with the wrapper in the transport's `write` slot and the
span in the not-ended set.  In every state in which the slot still holds that
wrapper, a write of a message whose element 1 is `"error"`, when the captured
original write returns `returned`, returns `returned`; after everything the
original write did it hands the span the message's element 2 as error message
with status ERROR, and then forwards `span.end()` if the span is still in the
not-ended set and nothing if it has been closed already; the span is out of
the set afterwards, the slot is left as the original write left it, and when
the captured original is the transport's own write the slot holds that
again. -/
theorem write_wrapper_error_marker (origWrite : Nat → Val → Except Val Val)
    (extract : Val → Context) (handler : Handler) (event : String) (req : Request)
    (res : Response) (active : Context) (w : World) (message returned : Val)
    (hevent : event ≠ "MUSHI_DONE") (hmark : index message 1 = Val.str "error") :
    let span := (serverSpan extract req res w).1
    let ow := w.connWrite res._conn
    let installed := (serverSpan extract req res w).2.setWrite res._conn
      (WriteFn.wrapper res._conn span ow)
    let errorEvents : List Event :=
      [ Event.setAttributes span
          [ (AttrKey.RPC_ERROR_NAME, Val.undefined),
            (AttrKey.RPC_ERROR_MESSAGE, index message 2),
            (AttrKey.RPC_ERROR_STACK, Val.undefined) ],
        Event.setStatus span SpanStatusCode.ERROR (index message 2) ]
    serverHandle origWrite extract handler event req res active w =
        safeExecuteInTheMiddle
          (fun v => runOriginal origWrite handler event res
            (setRPCMetadata (setSpan (extract req.headers) span) span) v)
          (onFinishError span) installed
    ∧ installed.connWrite res._conn = WriteFn.wrapper res._conn span ow
    ∧ span ∈ installed._spanNotEnded
    ∧ ∀ w1 : World, w1.connWrite res._conn = WriteFn.wrapper res._conn span ow →
        (callWrite origWrite ow res._conn message (w1.setWrite res._conn ow)).1 =
          Except.ok returned →
        (callWrite origWrite (w1.connWrite res._conn) res._conn message w1).1 =
            Except.ok returned
        ∧ (callWrite origWrite (w1.connWrite res._conn) res._conn message w1).2.log =
            (callWrite origWrite ow res._conn message (w1.setWrite res._conn ow)).2.log
              ++ errorEvents
              ++ (if span ∈ (callWrite origWrite ow res._conn message
                    (w1.setWrite res._conn ow)).2._spanNotEnded
                  then [Event.spanEnd span] else [])
        ∧ span ∉ (callWrite origWrite (w1.connWrite res._conn) res._conn message
            w1).2._spanNotEnded
        ∧ (callWrite origWrite (w1.connWrite res._conn) res._conn message w1).2.connWrite =
            (callWrite origWrite ow res._conn message (w1.setWrite res._conn ow)).2.connWrite
        ∧ (ow = WriteFn.original →
            (callWrite origWrite (w1.connWrite res._conn) res._conn message w1).2.log =
              w1.log ++ Event.write res._conn message :: errorEvents
                ++ (if span ∈ w1._spanNotEnded then [Event.spanEnd span] else [])
            ∧ (callWrite origWrite (w1.connWrite res._conn) res._conn message
                w1).2.connWrite res._conn = WriteFn.original) := by
  intro span ow installed errorEvents
  have how : (serverSpan extract req res w).2.connWrite res._conn = ow := by
    simp only [serverSpan, startRpcSpan_connWrite, ow]
  refine ⟨?_, ?_, ?_, ?_⟩
  · simp only [serverHandle, if_neg hevent, how]
  · simp [installed, World.setWrite]
  · exact startRpcSpan_mem _ _ _ _ _
  · intro w1 hslot hinner
    generalize hin : callWrite origWrite ow res._conn message (w1.setWrite res._conn ow) = inner
      at hinner ⊢
    have hplain : truthy (Val.obj [("message", index message 2)]) = true := rfl
    have hstr : isStr (index message 1) "error" = true := by
      rw [hmark]
      rfl
    have hr : callWrite origWrite (w1.connWrite res._conn) res._conn message w1 =
        (Except.ok returned,
          _closeSpan span
            (setSpanWithError span (Val.obj [("message", index message 2)]) inner.2)) := by
      simp only [hslot, callWrite, safeExecuteInTheMiddle]
      simp only [hin, hinner, onFinishError, hstr, if_true]
      rfl
    have hann : (setSpanWithError span (Val.obj [("message", index message 2)]) inner.2).log =
        inner.2.log ++ errorEvents := by
      rw [setSpanWithError_log span _ inner.2 hplain]
      simp [errorEvents, getProp, lookupProp]
    have hlog : (_closeSpan span
        (setSpanWithError span (Val.obj [("message", index message 2)]) inner.2)).log =
        inner.2.log ++ errorEvents ++
          (if span ∈ inner.2._spanNotEnded then [Event.spanEnd span] else []) := by
      by_cases hm : span ∈ inner.2._spanNotEnded
      · have hm2 : span ∈ (setSpanWithError span (Val.obj [("message", index message 2)])
            inner.2)._spanNotEnded := by
          rw [setSpanWithError_spanNotEnded]
          exact hm
        simp only [closeSpan_of_mem _ _ hm2, if_pos hm, hann]
      · have hm2 : span ∉ (setSpanWithError span (Val.obj [("message", index message 2)])
            inner.2)._spanNotEnded := by
          rw [setSpanWithError_spanNotEnded]
          exact hm
        simp only [closeSpan_of_not_mem _ _ hm2, if_neg hm, hann, List.append_nil]
    have hconn : (_closeSpan span
        (setSpanWithError span (Val.obj [("message", index message 2)]) inner.2)).connWrite =
        inner.2.connWrite := by
      simp only [_closeSpan, setSpanWithError, World.emit]
      split <;> split <;> rfl
    rw [hr]
    refine ⟨rfl, hlog, not_mem_after_closeSpan span _, hconn, ?_⟩
    intro horig
    have hinner2 : inner.2 = (w1.setWrite res._conn ow).emit (Event.write res._conn message) := by
      rw [← hin]
      simp only [horig, callWrite]
    constructor
    · simp only [hlog]
      rw [hinner2]
      simp [World.emit, World.setWrite]
    · simp only [hconn]
      rw [hinner2]
      simp [World.emit, World.setWrite, horig]

/-- Witness for C6 amended: the message `[0, "error", "bad request"]` written
after a dispatch for `Foo` on an unwrapped transport, first with the span
still open and then after the handler threw. -/
theorem write_wrapper_error_marker_witness :
    "call" ≠ "MUSHI_DONE"
    ∧ index errorMessage 1 = Val.str "error"
    ∧ (callWrite origWriteOk (dispatchedWorld.connWrite 0) 0 errorMessage dispatchedWorld).2.log =
        dispatchedWorld.log ++
          [ Event.write 0 errorMessage,
            Event.setAttributes exampleSpan
              [ (AttrKey.RPC_ERROR_NAME, Val.undefined),
                (AttrKey.RPC_ERROR_MESSAGE, Val.str "bad request"),
                (AttrKey.RPC_ERROR_STACK, Val.undefined) ],
            Event.setStatus exampleSpan SpanStatusCode.ERROR (Val.str "bad request"),
            Event.spanEnd exampleSpan ]
    ∧ (callWrite origWriteOk (thrownWorld.connWrite 0) 0 errorMessage thrownWorld).2.log =
        thrownWorld.log ++
          [ Event.write 0 errorMessage,
            Event.setAttributes exampleSpan
              [ (AttrKey.RPC_ERROR_NAME, Val.undefined),
                (AttrKey.RPC_ERROR_MESSAGE, Val.str "bad request"),
                (AttrKey.RPC_ERROR_STACK, Val.undefined) ],
            Event.setStatus exampleSpan SpanStatusCode.ERROR (Val.str "bad request") ] :=
  ⟨by decide, rfl,
    (((write_wrapper_error_marker origWriteOk extractNone quietHandler "call" plainRequest resFoo
      ROOT_CONTEXT defaultWorld errorMessage (Val.bool true) (by decide) rfl).2.2.2
        dispatchedWorld rfl rfl).2.2.2.2 rfl).1,
    (((write_wrapper_error_marker origWriteOk extractNone throwingHandler "call" plainRequest
      resFoo ROOT_CONTEXT defaultWorld errorMessage (Val.bool true) (by decide) rfl).2.2.2
        thrownWorld rfl rfl).2.2.2.2 rfl).1⟩

/-- Witness for C7 amended: `connect(cb)` returns a client, and the callback is
called afterwards with `(null, handle)`. -/
theorem traceClientConnection_callback_order_witness :
    functionTyped ([userCallback].getD 0 Val.undefined) = true
    ∧ exampleSpan ∈
        (_traceClientConnection quietConnect (Val.str "127.0.0.1") (Val.num 9000)
          [userCallback] ROOT_CONTEXT defaultWorld).2._spanNotEnded
    ∧ (invoke
        (Arg.connectCallback exampleSpan (setSpan ROOT_CONTEXT exampleSpan) userCallback)
        [Val.null, Val.obj []] ROOT_CONTEXT
        (_traceClientConnection quietConnect (Val.str "127.0.0.1") (Val.num 9000)
          [userCallback] ROOT_CONTEXT defaultWorld).2).log =
      (_traceClientConnection quietConnect (Val.str "127.0.0.1") (Val.num 9000)
          [userCallback] ROOT_CONTEXT defaultWorld).2.log ++
        [ Event.spanEnd exampleSpan,
          Event.callback userCallback [Val.null, Val.obj []]
            (setSpan ROOT_CONTEXT exampleSpan) ] :=
  ⟨rfl,
    ((traceClientConnection_callback_order quietConnect (Val.str "127.0.0.1") (Val.num 9000)
      [userCallback] ROOT_CONTEXT defaultWorld rfl).2.1 (Val.obj []) rfl rfl).2,
    (traceClientConnection_callback_order quietConnect (Val.str "127.0.0.1") (Val.num 9000)
      [userCallback] ROOT_CONTEXT defaultWorld rfl).2.2.2
      (_traceClientConnection quietConnect (Val.str "127.0.0.1") (Val.num 9000)
        [userCallback] ROOT_CONTEXT defaultWorld).2 (Val.obj []) ROOT_CONTEXT⟩

/-- C9 as stated fails: after the response write has closed the span (it is
out of the not-ended set, one `end` forwarded), a synchronous throw of the
handler still hands `setAttributes` and `setStatus` to that span. -/
theorem closed_span_still_annotated :
    exampleSpan ∉ writtenWorld._spanNotEnded
    ∧ endCount writtenWorld.log exampleSpan = 1
    ∧ (runInterceptors origWriteOk [Interceptor.handlerThrow exampleSpan boomError]
        writtenWorld).log =
        writtenWorld.log ++
          [ Event.setAttributes exampleSpan
              [ (AttrKey.RPC_ERROR_NAME, Val.str "Error"),
                (AttrKey.RPC_ERROR_MESSAGE, Val.str "boom"),
                (AttrKey.RPC_ERROR_STACK, Val.str "Error: boom") ],
            Event.setStatus exampleSpan SpanStatusCode.ERROR (Val.str "boom") ]
    ∧ (serverHandle origWriteOk extractNone writeThenThrowHandler "call" plainRequest resFoo
        ROOT_CONTEXT defaultWorld).2.log =
        [ Event.startSpan "MushiServer Foo" SpanKind.SERVER
            [ (AttrKey.RPC_SYSTEM, Val.str "@upyun/dendenmushi"),
              (AttrKey.RPC_METHOD, Val.str "Foo") ]
            ROOT_CONTEXT exampleSpan,
          Event.dispatch "call" { span := some exampleSpan, rpcMetadata := some exampleSpan },
          Event.write 0 okMessage,
          Event.spanEnd exampleSpan,
          Event.setAttributes exampleSpan
            [ (AttrKey.RPC_ERROR_NAME, Val.str "Error"),
              (AttrKey.RPC_ERROR_MESSAGE, Val.str "boom"),
              (AttrKey.RPC_ERROR_STACK, Val.str "Error: boom") ],
          Event.setStatus exampleSpan SpanStatusCode.ERROR (Val.str "boom") ] :=
  ⟨by decide, rfl, rfl, rfl⟩

theorem stable_step (origWrite : Nat → Val → Except Val Val) (s : Span)
    (e : Interceptor) (w : World) : Stable s w (e.step origWrite w) := by
  cases e with
  | connectCallback span newContext callback args =>
    simp only [Interceptor.step, invokeConnectCallback]
    refine stable_trans s _ _ _ ?_
      (stable_trans s _ _ _ (stable_closeSpan s span _)
        (stable_emit s _ (Event.callback callback args newContext) rfl))
    split
    · exact stable_setSpanWithError s span _ w
    · exact stable_refl s w
  | patchedCallback span bound callback args =>
    simp only [Interceptor.step, invokePatchedCallback]
    exact stable_trans s _ _ _ (stable_setSpanWithError s span _ w)
      (stable_trans s _ _ _ (stable_closeSpan s span _)
        (stable_emit s _ (Event.callback callback _ bound) rfl))
  | write conn message => exact stable_callWrite origWrite s _ conn message w
  | handlerThrow span error => exact stable_onFinishError s span error Val.undefined w

theorem stable_runInterceptors (origWrite : Nat → Val → Except Val Val) (s : Span)
    (events : List Interceptor) : ∀ w : World,
      Stable s w (runInterceptors origWrite events w) := by
  induction events with
  | nil => intro w; exact stable_refl s w
  | cons e rest ih =>
    intro w
    exact stable_trans s _ _ _ (stable_step origWrite s e w) (ih _)

/-- C9 amended: once a span is out of the not-ended set, no sequence of
interceptor events (wrapped callback invocations, transport writes,
synchronous handler throws) forwards another `span.end()` to it or puts it
back into the set. -/
theorem closed_span_never_ended_again (origWrite : Nat → Val → Except Val Val)
    (events : List Interceptor) (w : World) (span : Span)
    (hclosed : span ∉ w._spanNotEnded) :
    endCount (runInterceptors origWrite events w).log span = endCount w.log span
    ∧ span ∉ (runInterceptors origWrite events w)._spanNotEnded := by
  have hst := stable_runInterceptors origWrite span events w
  have hout := hst.2 hclosed
  refine ⟨?_, hout⟩
  rw [endCount_of_stable_closed span _ _ hst hout]
  simp [potential, hclosed]

/-- Witness for C9 amended: a throw, a write and a late callback after the
response for `Foo` has been written. -/
theorem closed_span_never_ended_again_witness :
    exampleSpan ∉ writtenWorld._spanNotEnded
    ∧ endCount (runInterceptors origWriteOk
        [ Interceptor.handlerThrow exampleSpan boomError,
          Interceptor.write 0 errorMessage,
          Interceptor.connectCallback exampleSpan ROOT_CONTEXT userCallback [boomError] ]
        writtenWorld).log exampleSpan = endCount writtenWorld.log exampleSpan :=
  ⟨by decide,
    (closed_span_never_ended_again origWriteOk
      [ Interceptor.handlerThrow exampleSpan boomError,
        Interceptor.write 0 errorMessage,
        Interceptor.connectCallback exampleSpan ROOT_CONTEXT userCallback [boomError] ]
      writtenWorld exampleSpan (by decide)).1⟩

/-- C10 evaluated on the code: after dispatches for `Foo` and then `Bar` on one
transport, both spans are open; the first write, carrying the error response
for `Foo`, annotates and ends the span of `Foo` and then also annotates and
ends the span of `Bar`, which leaves the not-ended set. -/
theorem shared_transport_first_write_closes_both :
    exampleSpan ∈ twoDispatchWorld._spanNotEnded
    ∧ secondSpan ∈ twoDispatchWorld._spanNotEnded
    ∧ (runInterceptors origWriteOk [Interceptor.write 0 errorMessage] twoDispatchWorld).log =
        twoDispatchWorld.log ++
          [ Event.write 0 errorMessage,
            Event.setAttributes exampleSpan
              [ (AttrKey.RPC_ERROR_NAME, Val.undefined),
                (AttrKey.RPC_ERROR_MESSAGE, Val.str "bad request"),
                (AttrKey.RPC_ERROR_STACK, Val.undefined) ],
            Event.setStatus exampleSpan SpanStatusCode.ERROR (Val.str "bad request"),
            Event.spanEnd exampleSpan,
            Event.setAttributes secondSpan
              [ (AttrKey.RPC_ERROR_NAME, Val.undefined),
                (AttrKey.RPC_ERROR_MESSAGE, Val.str "bad request"),
                (AttrKey.RPC_ERROR_STACK, Val.undefined) ],
            Event.setStatus secondSpan SpanStatusCode.ERROR (Val.str "bad request"),
            Event.spanEnd secondSpan ]
    ∧ secondSpan ∉
        (runInterceptors origWriteOk [Interceptor.write 0 errorMessage]
          twoDispatchWorld)._spanNotEnded :=
  ⟨by decide, by decide, rfl, by decide⟩

end Dendenmushi
